import Mathlib

/-!
Shallow embedding of `custom_components/toyota/climate.py` (the `ToyotaClimate`
entity of the ha_toyota repository) and proofs about its debounce /
optimistic-update / poll-reconciliation protocol.

Modelling conventions:
* Temperatures are carried as `Int`; the Python code never performs arithmetic
  on them, it only stores and forwards them, so any value type with decidable
  equality is faithful.
* Remote API calls are black boxes: each operation takes the result the remote
  layer would produce as an explicit argument (`ApiResult`, `RefreshResult`,
  `ClimateStatusResult`).  `ApiResult.raise` models a raised exception;
  `ApiResult.value v` models a returned object characterised by its Python
  truthiness `v.truthy` and its optional `status` attribute `v.statusField`
  (`none` means `hasattr(status, "status")` is false).
* Side effects (`async_write_ha_state`, remote calls) are collected in an
  effect trace `List Effect`, in program order.
* Exception propagation is explicit: function bodies produce an `Outcome`
  (`ok` or `exn`); a Python `try/except Exception` boundary is `Outcome.catchAll`.
* The host scheduler's deferred-call primitive (`async_call_later`) is modelled
  by a set `live` of scheduled timer handles in the state: cancelling removes
  the handle from `live`, and `fireTimer` runs the callback only for a handle
  still in `live` (a cancelled timer's callback never fires — the framework
  guarantee the code relies on).
-/

namespace ToyotaClimate

/-- HVACMode values used by the entity (`_attr_hvac_modes = (OFF, HEAT_COOL)`). -/
inductive HVACMode where
  | off
  | heat_cool
deriving DecidableEq, Repr

/-- pytoyoda `ACParameters(enabled=…, name=…)`. -/
structure ACParameters where
  name : String
  enabled : Bool
deriving DecidableEq, Repr

/-- pytoyoda `ACOperations(categoryName=…, acParameters=…)`. -/
structure ACOperations where
  categoryName : String
  acParameters : List ACParameters
deriving DecidableEq, Repr

/-- pytoyoda `ClimateSettingsModel(settingsOn, temperature, temperatureUnit, acOperations)`. -/
structure ClimateSettingsModel where
  settingsOn : Bool
  temperature : Int
  temperatureUnit : String
  acOperations : List ACOperations
deriving DecidableEq, Repr

/-- A value returned by a remote call, characterised by its Python truthiness
and its optional `status` attribute (an `Int`; `none` = no such attribute). -/
structure ApiValue where
  truthy : Bool
  statusField : Option Int
deriving DecidableEq, Repr

/-- Result of `update_climate_settings` / `send_climate_control_command`:
either an exception is raised or a value is returned. -/
inductive ApiResult where
  | raise
  | value (v : ApiValue)
deriving DecidableEq, Repr

/-- Result of `vehicle.refresh_climate_status()`. -/
inductive RefreshResult where
  | raise
  | ok (b : Bool)
deriving DecidableEq, Repr

/-- Result of `get_climate_status`: the payload's `status` flag and
`current_temperature.value`. -/
inductive ClimateStatusResult where
  | raise
  | ok (status : Bool) (current_temperature : Int)
deriving DecidableEq, Repr

/-- A remote call issued by the entity, with its payload. -/
inductive RemoteCall where
  | updateSettings (payload : ClimateSettingsModel)
  | sendCommand (command : String)
  | refreshStatus
  | getStatus
deriving DecidableEq, Repr

/-- The displayed attributes published by `async_write_ha_state`. -/
structure PublishedState where
  hvac_mode : HVACMode
  target_temperature : Int
  current_temperature : Option Int
  preset_mode : String
deriving DecidableEq, Repr

/-- One observable side effect, in program order. -/
inductive Effect where
  | writeState (p : PublishedState)
  | remoteCall (c : RemoteCall)
deriving DecidableEq, Repr

/-- The mutable state of one `ToyotaClimate` entity, together with the host
framework's timer queue (`live`). -/
structure EntityState where
  hvac_mode : HVACMode
  target_temperature : Int
  min_temp : Int
  max_temp : Int
  target_temperature_step : Int
  current_temperature : Option Int
  front_defrost : Bool
  rear_defrost : Bool
  climate_status : Bool
  vehicleOperations : List ACOperations
  pending : Option Nat
  settings_changed : Bool
  nextTimer : Nat
  live : List Nat
deriving DecidableEq, Repr

/-- Outcome of running a code block: `ok` = returned normally, `exn` = an
exception escaped; both carry the state and the effect trace so far. -/
inductive Outcome where
  | ok (s : EntityState) (effs : List Effect)
  | exn (s : EntityState) (effs : List Effect)
deriving DecidableEq, Repr

/-- State after the block, whether or not an exception escaped. -/
def Outcome.afterState : Outcome → EntityState
  | .ok s _ => s
  | .exn s _ => s

/-- Effects the block performed. -/
def Outcome.effects : Outcome → List Effect
  | .ok _ e => e
  | .exn _ e => e

/-- Did the block return normally? -/
def Outcome.isOk : Outcome → Bool
  | .ok _ _ => true
  | .exn _ _ => false

/-- A Python `try: … except Exception: log` boundary: an escaping exception is
swallowed and the operation returns normally. -/
def Outcome.catchAll : Outcome → Outcome
  | .ok s e => .ok s e
  | .exn s e => .ok s e

/-- The remote settings-update calls appearing in an effect trace. -/
def settingsCalls (e : List Effect) : List ClimateSettingsModel :=
  e.filterMap fun eff =>
    match eff with
    | .remoteCall (.updateSettings p) => some p
    | _ => none

/-- All remote calls appearing in an effect trace. -/
def remoteCalls (e : List Effect) : List RemoteCall :=
  e.filterMap fun eff =>
    match eff with
    | .remoteCall c => some c
    | _ => none

/-- The last state published to observers in an effect trace, if any. -/
def lastPublished (e : List Effect) : Option PublishedState :=
  e.reverse.findSome? fun eff =>
    match eff with
    | .writeState p => some p
    | _ => none

/-- `climate_settings_on` property: `hvac_mode == HVACMode.HEAT_COOL`. -/
def climate_settings_on (s : EntityState) : Bool :=
  s.hvac_mode = HVACMode.heat_cool

/-- `preset_mode` property, derived from the two defrost booleans. -/
def preset_mode (s : EntityState) : String :=
  if s.front_defrost && s.rear_defrost then "both_defrost"
  else if s.front_defrost then "front_defrost"
  else if s.rear_defrost then "rear_defrost"
  else "none"

/-- Snapshot published by `async_write_ha_state`. -/
def snapshot (s : EntityState) : PublishedState :=
  { hvac_mode := s.hvac_mode
    target_temperature := s.target_temperature
    current_temperature := s.current_temperature
    preset_mode := preset_mode s }

/-- Loop inside `_create_climate_settings`: find the first operation with
`category_name == "defrost"`, replace it with a fresh defrost operation built
from the current flags, and stop (`break`). -/
def replaceDefrost (front rear : Bool) : List ACOperations → List ACOperations
  | [] => []
  | op :: rest =>
    if op.categoryName = "defrost" then
      { categoryName := "defrost"
        acParameters :=
          [{ name := "frontDefrost", enabled := front },
           { name := "rearDefrost", enabled := rear }] } :: rest
    else op :: replaceDefrost front rear rest

/-- `_create_climate_settings`. -/
def create_climate_settings (s : EntityState) : ClimateSettingsModel :=
  { settingsOn := climate_settings_on s
    temperature := s.target_temperature
    temperatureUnit := "C"
    acOperations := replaceDefrost s.front_defrost s.rear_defrost s.vehicleOperations }

/-- `self._pending_settings_cancel()` followed by `… = None`: remove the
pending timer from the framework queue and forget the handle.  No-op when no
timer is pending. -/
def cancelPending (s : EntityState) : EntityState :=
  match s.pending with
  | none => s
  | some t => { s with pending := none, live := s.live.erase t }

/-- `_debounce_send_climate_settings`: cancel any pending scheduled call, mark
settings changed, schedule a fresh deferred send. -/
def debounce_send_climate_settings (s : EntityState) : EntityState :=
  let s := cancelPending s
  let t := s.nextTimer
  { s with settings_changed := true
           pending := some t
           live := t :: s.live
           nextTimer := t + 1 }

/-- `_send_climate_settings`: build the payload, call
`update_climate_settings`, return `false` on a falsy result, a result whose
`status` attribute is 0, or a raised exception (caught inside); `true`
otherwise.  The entity state is not mutated. -/
def send_climate_settings (s : EntityState) (res : ApiResult) :
    Bool × List Effect :=
  let call := [Effect.remoteCall (.updateSettings (create_climate_settings s))]
  match res with
  | .raise => (false, call)
  | .value v =>
    if !v.truthy || v.statusField == some 0 then (false, call)
    else (true, call)

/-- The framework firing timer handle `t`: only a still-scheduled handle runs
its callback `_delayed_send_climate_settings`, which clears the handle, and if
`_settings_changed` sends the settings and clears the flag. -/
def fireTimer (s : EntityState) (t : Nat) (res : ApiResult) :
    EntityState × List Effect :=
  if t ∈ s.live then
    let s := { s with live := s.live.erase t, pending := none }
    if s.settings_changed then
      let r := send_climate_settings s res
      ({ s with settings_changed := false }, r.2)
    else (s, [])
  else (s, [])

/-- `async_set_temperature`: return immediately when no temperature is in the
kwargs; otherwise set the target optimistically, publish, and debounce a send. -/
def async_set_temperature (s : EntityState) (temperature : Option Int) :
    Outcome :=
  match temperature with
  | none => .ok s []
  | some temp =>
    let s := { s with target_temperature := temp }
    let effs := [Effect.writeState (snapshot s)]
    let s := debounce_send_climate_settings s
    .ok s effs

/-- `async_set_preset_mode`: map the preset name to the defrost flag pair,
publish, and debounce a send.  Any unknown name falls into the `"none"`
branch, as in the source's final `else`. -/
def async_set_preset_mode (s : EntityState) (preset : String) : Outcome :=
  let s :=
    if preset = "both_defrost" then
      { s with front_defrost := true, rear_defrost := true }
    else if preset = "front_defrost" then
      { s with front_defrost := true, rear_defrost := false }
    else if preset = "rear_defrost" then
      { s with front_defrost := false, rear_defrost := true }
    else
      { s with front_defrost := false, rear_defrost := false }
  let effs := [Effect.writeState (snapshot s)]
  let s := debounce_send_climate_settings s
  .ok s effs

/-- Body of `_turn_on_climate` (inside the `try`): optimistic HEAT_COOL and
publish, cancel any pending debounced send and clear the dirty flag, send the
settings immediately; only on success issue `engine-start`, and roll back to
OFF when that command returns a falsy result or `status == 0`. -/
def turn_on_inner (s : EntityState) (upd start : ApiResult) : Outcome :=
  let s := { s with hvac_mode := HVACMode.heat_cool }
  let e := [Effect.writeState (snapshot s)]
  let s := cancelPending s
  let s := { s with settings_changed := false }
  let r := send_climate_settings s upd
  let e := e ++ r.2
  if r.1 then
    let e := e ++ [Effect.remoteCall (.sendCommand "engine-start")]
    match start with
    | .raise => .exn s e
    | .value v =>
      if !v.truthy || v.statusField == some 0 then
        let s := { s with hvac_mode := HVACMode.off }
        .ok s (e ++ [Effect.writeState (snapshot s)])
      else .ok s e
  else .ok s e

/-- `_turn_on_climate` with its `try/except` boundary. -/
def turn_on_climate (s : EntityState) (upd start : ApiResult) : Outcome :=
  (turn_on_inner s upd start).catchAll

/-- Body of `_turn_off_climate` (inside the `try`): optimistic OFF and
publish, then issue `engine-stop`; no rollback regardless of the result. -/
def turn_off_inner (s : EntityState) (stop : ApiResult) : Outcome :=
  let s := { s with hvac_mode := HVACMode.off }
  let e := [Effect.writeState (snapshot s),
            Effect.remoteCall (.sendCommand "engine-stop")]
  match stop with
  | .raise => .exn s e
  | .value _ => .ok s e

/-- `_turn_off_climate` with its `try/except` boundary. -/
def turn_off_climate (s : EntityState) (stop : ApiResult) : Outcome :=
  (turn_off_inner s stop).catchAll

/-- `async_set_hvac_mode`. -/
def async_set_hvac_mode (s : EntityState) (mode : HVACMode)
    (upd start stop : ApiResult) : Outcome :=
  match mode with
  | .off => turn_off_climate s stop
  | .heat_cool => turn_on_climate s upd start

/-- Body of `async_update` (inside the `try`): no-op when settings are off;
otherwise refresh, fetch the detailed status, and either sync the current
temperature (active) or transition to OFF (active→inactive edge), then
publish. -/
def async_update_inner (s : EntityState) (refresh : RefreshResult)
    (status : ClimateStatusResult) : Outcome :=
  if climate_settings_on s then
    match refresh with
    | .raise => .exn s [Effect.remoteCall .refreshStatus]
    | .ok false => .ok s [Effect.remoteCall .refreshStatus]
    | .ok true =>
      let e := [Effect.remoteCall .refreshStatus, Effect.remoteCall .getStatus]
      match status with
      | .raise => .exn s e
      | .ok st cur =>
        let s :=
          if st then
            { s with climate_status := true, current_temperature := some cur }
          else if s.climate_status then
            { s with hvac_mode := HVACMode.off
                     current_temperature := none
                     climate_status := false }
          else s
        .ok s (e ++ [Effect.writeState (snapshot s)])
  else .ok s []

/-- `async_update` with its `try/except` boundary.  (The settings-on gate is
before the `try` in the source; `catchAll` is the identity on that path.) -/
def async_update (s : EntityState) (refresh : RefreshResult)
    (status : ClimateStatusResult) : Outcome :=
  (async_update_inner s refresh status).catchAll

/-- `async_will_remove_from_hass`: cancel any pending scheduled call. -/
def will_remove_from_hass (s : EntityState) : Outcome :=
  .ok (cancelPending s) []

/-- Inner loop of `__init__`'s defrost extraction: for each parameter of a
defrost operation, record `frontDefrost` / `rearDefrost` enabled flags
(later occurrences win, as in the Python loop). -/
def initDefrost (ops : List ACOperations) : Bool × Bool :=
  ops.foldl
    (fun acc op =>
      if op.categoryName = "defrost" then
        op.acParameters.foldl
          (fun acc p =>
            if p.name = "frontDefrost" then (p.enabled, acc.2)
            else if p.name = "rearDefrost" then (acc.1, p.enabled)
            else acc)
          acc
      else acc)
    (false, false)

/-- `__init__`: initial entity state from the vehicle's climate settings
(`target`, `minT`, `maxT`, `tstep` are the `getattr` results, defaults
21/18/29/1 applied by the caller). -/
def initState (ops : List ACOperations) (target minT maxT tstep : Int) :
    EntityState :=
  { hvac_mode := HVACMode.off
    target_temperature := target
    min_temp := minT
    max_temp := maxT
    target_temperature_step := tstep
    current_temperature := none
    front_defrost := (initDefrost ops).1
    rear_defrost := (initDefrost ops).2
    climate_status := false
    vehicleOperations := ops
    pending := none
    settings_changed := false
    nextTimer := 0
    live := [] }

/-- One externally triggered operation on the entity, with the remote results
it consumes. -/
inductive Action where
  | setTemperature (temperature : Option Int)
  | setPreset (preset : String)
  | setHvacMode (mode : HVACMode) (upd start stop : ApiResult)
  | turnOn (upd start : ApiResult)
  | turnOff (stop : ApiResult)
  | update (refresh : RefreshResult) (status : ClimateStatusResult)
  | fire (t : Nat) (res : ApiResult)
  | remove
deriving DecidableEq, Repr

/-- Dispatch an action to the corresponding entry point.  `fire` is the host
timer queue delivering a deferred callback. -/
def stepO (s : EntityState) : Action → Outcome
  | .setTemperature t => async_set_temperature s t
  | .setPreset p => async_set_preset_mode s p
  | .setHvacMode m upd start stop => async_set_hvac_mode s m upd start stop
  | .turnOn upd start => turn_on_climate s upd start
  | .turnOff stop => turn_off_climate s stop
  | .update r st => async_update s r st
  | .fire t res =>
    let r := fireTimer s t res
    .ok r.1 r.2
  | .remove => will_remove_from_hass s

/-- The state after an action. -/
def step (s : EntityState) (a : Action) : EntityState :=
  (stepO s a).afterState

/-- States reachable from some initial entity state by any action sequence. -/
inductive Reachable : EntityState → Prop
  | init (ops : List ACOperations) (target minT maxT tstep : Int) :
      Reachable (initState ops target minT maxT tstep)
  | step {s : EntityState} (a : Action) : Reachable s → Reachable (step s a)

/-- Timer discipline invariant: the framework's queue holds exactly the
entity's pending handle (so at most one timer is live), and every live handle
was allocated before `nextTimer` (handles are fresh). -/
def timerInv (s : EntityState) : Prop :=
  s.live = s.pending.toList ∧ ∀ t ∈ s.live, t < s.nextTimer

/-- Did the remote settings-update succeed by the code's own check
(`not status or (hasattr(status, "status") and status.status == 0)`)? -/
def ApiResult.isSuccess : ApiResult → Bool
  | .raise => false
  | .value v => !(!v.truthy || v.statusField == some 0)

/-- Is the result a returned (not raised) value that the code's check rejects:
falsy, or carrying `status == 0`? -/
def ApiResult.isFailedValue : ApiResult → Bool
  | .raise => false
  | .value v => !v.truthy || v.statusField == some 0

/-- One debounced send request: a temperature change or a preset change. -/
inductive SendRequest where
  | temp (v : Int)
  | preset (name : String)
deriving DecidableEq

/-- The entry point a send request goes through. -/
def SendRequest.toAction : SendRequest → Action
  | .temp v => Action.setTemperature (some v)
  | .preset n => Action.setPreset n

/-- Run a burst of send requests back to back (no timer fires in between,
i.e. consecutive requests arrive within the debounce window), collecting the
effects. -/
def runBurst (s : EntityState) : List SendRequest → EntityState × List Effect
  | [] => (s, [])
  | r :: rs =>
    let o := stepO s r.toAction
    let rest := runBurst o.afterState rs
    (rest.1, o.effects ++ rest.2)

/-- A concrete vehicle operations list with one defrost operation, for
witnesses. -/
def sampleOps : List ACOperations :=
  [{ categoryName := "defrost"
     acParameters := [{ name := "frontDefrost", enabled := false },
                      { name := "rearDefrost", enabled := false }] }]

/-- A concrete freshly initialised entity, for witnesses. -/
def sampleState : EntityState := initState sampleOps 21 18 29 1

/-- `sampleState` with climate commanded on and observed active, for
witnesses about the poll path. -/
def sampleActiveState : EntityState :=
  { sampleState with hvac_mode := HVACMode.heat_cool
                     climate_status := true
                     current_temperature := some 20 }

/-- `sampleState` right after one debounced request: timer handle 0 is
pending, for witnesses about cancellation. -/
def samplePendingState : EntityState :=
  debounce_send_climate_settings sampleState

/-! ### Frame lemmas about the timer bookkeeping -/

@[simp]
lemma cancelPending_pending (s : EntityState) : (cancelPending s).pending = none := by
  unfold cancelPending
  cases hp : s.pending <;> simp [hp]

@[simp]
lemma cancelPending_live (s : EntityState) :
    (cancelPending s).live =
      match s.pending with
      | none => s.live
      | some t => s.live.erase t := by
  unfold cancelPending
  cases hp : s.pending <;> simp [hp]

@[simp]
lemma cancelPending_hvac_mode (s : EntityState) :
    (cancelPending s).hvac_mode = s.hvac_mode := by
  unfold cancelPending
  cases hp : s.pending <;> rfl

@[simp]
lemma cancelPending_target_temperature (s : EntityState) :
    (cancelPending s).target_temperature = s.target_temperature := by
  unfold cancelPending
  cases hp : s.pending <;> rfl

@[simp]
lemma cancelPending_current_temperature (s : EntityState) :
    (cancelPending s).current_temperature = s.current_temperature := by
  unfold cancelPending
  cases hp : s.pending <;> rfl

@[simp]
lemma cancelPending_front_defrost (s : EntityState) :
    (cancelPending s).front_defrost = s.front_defrost := by
  unfold cancelPending
  cases hp : s.pending <;> rfl

@[simp]
lemma cancelPending_rear_defrost (s : EntityState) :
    (cancelPending s).rear_defrost = s.rear_defrost := by
  unfold cancelPending
  cases hp : s.pending <;> rfl

@[simp]
lemma cancelPending_climate_status (s : EntityState) :
    (cancelPending s).climate_status = s.climate_status := by
  unfold cancelPending
  cases hp : s.pending <;> rfl

@[simp]
lemma cancelPending_vehicleOperations (s : EntityState) :
    (cancelPending s).vehicleOperations = s.vehicleOperations := by
  unfold cancelPending
  cases hp : s.pending <;> rfl

@[simp]
lemma cancelPending_settings_changed (s : EntityState) :
    (cancelPending s).settings_changed = s.settings_changed := by
  unfold cancelPending
  cases hp : s.pending <;> rfl

@[simp]
lemma cancelPending_nextTimer (s : EntityState) :
    (cancelPending s).nextTimer = s.nextTimer := by
  unfold cancelPending
  cases hp : s.pending <;> rfl

lemma cancelPending_live_of_inv {s : EntityState} (hinv : timerInv s) :
    (cancelPending s).live = [] := by
  rw [cancelPending_live, hinv.1]
  cases hp : s.pending <;> simp [hp]

lemma create_climate_settings_cancelPending (s : EntityState) :
    create_climate_settings (cancelPending s) = create_climate_settings s := by
  unfold create_climate_settings climate_settings_on
  simp

/-! ### C10: temperature setter without a temperature is a no-op -/

/-- C10: a call to `async_set_temperature` whose kwargs carry no temperature
returns immediately: the state is unchanged (in particular nothing is
scheduled) and no effect — no publish, no remote call — is produced. -/
theorem C10_set_temperature_without_value_noop (s : EntityState) :
    async_set_temperature s none = Outcome.ok s [] := rfl

/-! ### C7: preset set-then-get round-trip -/

@[simp]
lemma debounce_front_defrost (s : EntityState) :
    (debounce_send_climate_settings s).front_defrost = s.front_defrost := by
  unfold debounce_send_climate_settings
  simp

@[simp]
lemma debounce_rear_defrost (s : EntityState) :
    (debounce_send_climate_settings s).rear_defrost = s.rear_defrost := by
  unfold debounce_send_climate_settings
  simp

/-- C7: for every preset name among `none`, `front_defrost`, `rear_defrost`,
`both_defrost`, applying the preset via `async_set_preset_mode` and then
reading the derived `preset_mode` of the resulting state returns the same
name. -/
theorem C7_preset_roundtrip (s : EntityState) (p : String)
    (h : p ∈ ["none", "front_defrost", "rear_defrost", "both_defrost"]) :
    preset_mode (async_set_preset_mode s p).afterState = p := by
  have h' : p = "none" ∨ p = "front_defrost" ∨ p = "rear_defrost" ∨
      p = "both_defrost" := by simpa using h
  rcases h' with h | h | h | h <;> subst h <;>
    simp [async_set_preset_mode, Outcome.afterState, preset_mode]

/-- Witness for C7 at a concrete state and preset name. -/
theorem C7_preset_roundtrip_witness :
    preset_mode (async_set_preset_mode sampleState "rear_defrost").afterState =
      "rear_defrost" :=
  C7_preset_roundtrip sampleState "rear_defrost" (by simp)

/-! ### C6: poll with mode OFF is a pure no-op -/

/-- C6: a poll (`async_update`) starting with `hvac_mode = OFF` (so
`climate_settings_on` is false) issues no remote calls and leaves every field
of the state unchanged, whatever the remote layer would have answered. -/
theorem C6_poll_off_noop (s : EntityState) (refresh : RefreshResult)
    (status : ClimateStatusResult) (h : s.hvac_mode = HVACMode.off) :
    async_update s refresh status = Outcome.ok s [] := by
  unfold async_update async_update_inner climate_settings_on
  rw [h]
  simp [Outcome.catchAll]

/-- Witness for C6 at a concrete state and remote answers. -/
theorem C6_poll_off_noop_witness :
    async_update sampleState (RefreshResult.ok true)
      (ClimateStatusResult.ok true 20) = Outcome.ok sampleState [] :=
  C6_poll_off_noop sampleState (RefreshResult.ok true)
    (ClimateStatusResult.ok true 20) rfl

/-! ### C5: poll-driven shutdown on the active-to-inactive edge -/

/-- C5: a poll whose refresh call actually happens and succeeds (which
requires `hvac_mode = HEAT_COOL`, since the handler returns before any remote
call otherwise) and whose fetched climate status reports inactive, starting
from `climate_status = true`, ends with `hvac_mode = OFF`, no current
temperature, and `climate_status = false`. -/
theorem C5_poll_shutdown (s : EntityState) (cur : Int)
    (hmode : s.hvac_mode = HVACMode.heat_cool)
    (hactive : s.climate_status = true) :
    (async_update s (RefreshResult.ok true)
        (ClimateStatusResult.ok false cur)).afterState.hvac_mode
        = HVACMode.off ∧
    (async_update s (RefreshResult.ok true)
        (ClimateStatusResult.ok false cur)).afterState.current_temperature
        = none ∧
    (async_update s (RefreshResult.ok true)
        (ClimateStatusResult.ok false cur)).afterState.climate_status
        = false := by
  unfold async_update async_update_inner climate_settings_on
  rw [hmode]
  simp [Outcome.catchAll, Outcome.afterState, hactive]

/-- Witness for C5 at a concrete active state. -/
theorem C5_poll_shutdown_witness :
    (async_update sampleActiveState (RefreshResult.ok true)
        (ClimateStatusResult.ok false 19)).afterState.hvac_mode
        = HVACMode.off ∧
    (async_update sampleActiveState (RefreshResult.ok true)
        (ClimateStatusResult.ok false 19)).afterState.current_temperature
        = none ∧
    (async_update sampleActiveState (RefreshResult.ok true)
        (ClimateStatusResult.ok false 19)).afterState.climate_status
        = false :=
  C5_poll_shutdown sampleActiveState 19 rfl rfl

/-! ### Helper lemmas about the send path and outcomes -/

@[simp]
lemma Outcome.catchAll_ok (s : EntityState) (e : List Effect) :
    (Outcome.ok s e).catchAll = Outcome.ok s e := rfl

@[simp]
lemma Outcome.catchAll_exn (s : EntityState) (e : List Effect) :
    (Outcome.exn s e).catchAll = Outcome.ok s e := rfl

@[simp]
lemma Outcome.afterState_ok (s : EntityState) (e : List Effect) :
    (Outcome.ok s e).afterState = s := rfl

@[simp]
lemma Outcome.afterState_exn (s : EntityState) (e : List Effect) :
    (Outcome.exn s e).afterState = s := rfl

@[simp]
lemma Outcome.effects_ok (s : EntityState) (e : List Effect) :
    (Outcome.ok s e).effects = e := rfl

@[simp]
lemma Outcome.effects_exn (s : EntityState) (e : List Effect) :
    (Outcome.exn s e).effects = e := rfl

lemma Outcome.catchAll_isOk (o : Outcome) : o.catchAll.isOk = true := by
  cases o <;> rfl

lemma send_climate_settings_fst (s : EntityState) (res : ApiResult) :
    (send_climate_settings s res).1 = res.isSuccess := by
  cases res with
  | raise => rfl
  | value v =>
    unfold send_climate_settings ApiResult.isSuccess
    cases h : (!v.truthy || v.statusField == some 0) <;> simp [h]

lemma send_climate_settings_snd (s : EntityState) (res : ApiResult) :
    (send_climate_settings s res).2 =
      [Effect.remoteCall (.updateSettings (create_climate_settings s))] := by
  cases res with
  | raise => rfl
  | value v =>
    unfold send_climate_settings
    cases h : (!v.truthy || v.statusField == some 0) <;> simp [h]

/-! ### C1: turn-on rollback when engine-start is rejected -/

/-- C1: when the settings-update call succeeds but the engine-start command
returns a falsy result or a result whose `status` field equals 0, turn-on
ends with `hvac_mode = OFF` and the last state published to observers shows
OFF. -/
theorem C1_turn_on_rollback (s : EntityState) (upd start : ApiResult)
    (hupd : upd.isSuccess = true) (hstart : start.isFailedValue = true) :
    (turn_on_climate s upd start).afterState.hvac_mode = HVACMode.off ∧
    (lastPublished (turn_on_climate s upd start).effects).map
      PublishedState.hvac_mode = some HVACMode.off := by
  cases start with
  | raise => simp [ApiResult.isFailedValue] at hstart
  | value w =>
    have hw : (!w.truthy || w.statusField == some 0) = true := by
      simpa [ApiResult.isFailedValue] using hstart
    unfold turn_on_climate turn_on_inner
    simp [send_climate_settings_fst, send_climate_settings_snd, hupd, hw,
      lastPublished, snapshot]

/-- Witness for C1: a successful settings update followed by an engine-start
rejection with `status = 0` rolls the sample entity back to OFF. -/
theorem C1_turn_on_rollback_witness :
    (turn_on_climate sampleState (ApiResult.value ⟨true, some 1⟩)
        (ApiResult.value ⟨true, some 0⟩)).afterState.hvac_mode
      = HVACMode.off ∧
    (lastPublished (turn_on_climate sampleState (ApiResult.value ⟨true, some 1⟩)
        (ApiResult.value ⟨true, some 0⟩)).effects).map
      PublishedState.hvac_mode = some HVACMode.off :=
  C1_turn_on_rollback sampleState (ApiResult.value ⟨true, some 1⟩)
    (ApiResult.value ⟨true, some 0⟩) rfl rfl

/-! ### C2: no rollback when the settings send itself fails -/

/-- C2 counterexample: with a falsy settings-update result (so the immediate
settings send fails), turn-on leaves `hvac_mode = HEAT_COOL` — the claimed
rollback to OFF does not happen.  The `if await self._send_climate_settings()`
in `_turn_on_climate` has no else branch. -/
theorem C2_counterexample :
    (turn_on_climate sampleState (ApiResult.value ⟨false, none⟩)
        (ApiResult.value ⟨true, some 1⟩)).afterState.hvac_mode
      = HVACMode.heat_cool := rfl

/-- C2 amended: when the immediate settings send fails (falsy result, zero
status, or a caught remote exception), turn-on does NOT roll back: the mode
stays HEAT_COOL, no engine-start command is issued, and the last published
state still shows HEAT_COOL.  (Rollback to OFF happens only in the C1
situation: settings send succeeded and engine-start was rejected.) -/
theorem C2_amended_no_rollback (s : EntityState) (upd start : ApiResult)
    (h : upd.isSuccess = false) :
    (turn_on_climate s upd start).afterState.hvac_mode = HVACMode.heat_cool ∧
    Effect.remoteCall (RemoteCall.sendCommand "engine-start") ∉
      (turn_on_climate s upd start).effects ∧
    (lastPublished (turn_on_climate s upd start).effects).map
      PublishedState.hvac_mode = some HVACMode.heat_cool := by
  unfold turn_on_climate turn_on_inner
  simp [send_climate_settings_fst, send_climate_settings_snd, h,
    lastPublished, snapshot]

/-- Witness for C2's amended statement at a concrete falsy settings result. -/
theorem C2_amended_no_rollback_witness :
    (turn_on_climate sampleState (ApiResult.value ⟨false, none⟩)
        (ApiResult.value ⟨true, some 1⟩)).afterState.hvac_mode
      = HVACMode.heat_cool ∧
    Effect.remoteCall (RemoteCall.sendCommand "engine-start") ∉
      (turn_on_climate sampleState (ApiResult.value ⟨false, none⟩)
        (ApiResult.value ⟨true, some 1⟩)).effects ∧
    (lastPublished (turn_on_climate sampleState (ApiResult.value ⟨false, none⟩)
        (ApiResult.value ⟨true, some 1⟩)).effects).map
      PublishedState.hvac_mode = some HVACMode.heat_cool :=
  C2_amended_no_rollback sampleState (ApiResult.value ⟨false, none⟩)
    (ApiResult.value ⟨true, some 1⟩) rfl

/-! ### C9: no public entry point propagates a remote exception -/

/-- C9: every public entry point (set temperature, set preset, set hvac mode,
turn on, turn off, poll update — and also the deferred-send callback and
teardown), run against any remote results including raised exceptions,
returns normally: no exception escapes the operation boundary. -/
theorem C9_no_exception_escapes (s : EntityState) (a : Action) :
    (stepO s a).isOk = true := by
  cases a with
  | setTemperature t => cases t <;> rfl
  | setPreset p => rfl
  | setHvacMode m upd start stop => cases m <;> exact Outcome.catchAll_isOk _
  | turnOn upd start => exact Outcome.catchAll_isOk _
  | turnOff stop => exact Outcome.catchAll_isOk _
  | update r st => exact Outcome.catchAll_isOk _
  | fire t res => rfl
  | remove => rfl

/-! ### Scheduling and invariant lemmas -/

@[simp]
lemma debounce_pending (s : EntityState) :
    (debounce_send_climate_settings s).pending = some s.nextTimer := by
  unfold debounce_send_climate_settings
  simp

@[simp]
lemma debounce_live (s : EntityState) :
    (debounce_send_climate_settings s).live =
      s.nextTimer :: (cancelPending s).live := by
  unfold debounce_send_climate_settings
  simp

@[simp]
lemma debounce_settings_changed (s : EntityState) :
    (debounce_send_climate_settings s).settings_changed = true := by
  unfold debounce_send_climate_settings
  simp

@[simp]
lemma debounce_nextTimer (s : EntityState) :
    (debounce_send_climate_settings s).nextTimer = s.nextTimer + 1 := by
  unfold debounce_send_climate_settings
  simp

lemma timerInv_debounce {s : EntityState} (h : timerInv s) :
    timerInv (debounce_send_climate_settings s) := by
  constructor
  · rw [debounce_live, debounce_pending, cancelPending_live_of_inv h]
    rfl
  · intro t ht
    rw [debounce_live, cancelPending_live_of_inv h] at ht
    rw [debounce_nextTimer]
    simp at ht
    omega

lemma timerInv_cancelPending {s : EntityState} (h : timerInv s) :
    timerInv (cancelPending s) := by
  refine ⟨?_, ?_⟩
  · rw [cancelPending_live_of_inv h, cancelPending_pending]
    rfl
  · intro t ht
    rw [cancelPending_live_of_inv h] at ht
    simp at ht

lemma turn_on_afterState_pending (s : EntityState) (upd start : ApiResult) :
    (turn_on_climate s upd start).afterState.pending = none := by
  unfold turn_on_climate turn_on_inner
  cases start with
  | raise => simp <;> split <;> simp
  | value w =>
    simp
    split
    · split <;> simp
    · simp

lemma turn_on_afterState_live (s : EntityState) (upd start : ApiResult) :
    (turn_on_climate s upd start).afterState.live = (cancelPending s).live := by
  unfold turn_on_climate turn_on_inner
  cases start with
  | raise => simp <;> split <;> simp
  | value w =>
    simp
    split
    · split <;> simp
    · simp

lemma turn_on_afterState_nextTimer (s : EntityState) (upd start : ApiResult) :
    (turn_on_climate s upd start).afterState.nextTimer = s.nextTimer := by
  unfold turn_on_climate turn_on_inner
  cases start with
  | raise => simp <;> split <;> simp
  | value w =>
    simp
    split
    · split <;> simp
    · simp

lemma turn_off_afterState (s : EntityState) (stop : ApiResult) :
    (turn_off_climate s stop).afterState = { s with hvac_mode := HVACMode.off } := by
  unfold turn_off_climate turn_off_inner
  cases stop <;> rfl

lemma update_afterState_pending (s : EntityState) (r : RefreshResult)
    (st : ClimateStatusResult) :
    (async_update s r st).afterState.pending = s.pending := by
  unfold async_update async_update_inner
  split
  · cases r with
    | raise => rfl
    | ok b =>
      cases b
      · rfl
      · cases st with
        | raise => rfl
        | ok f cur => cases f <;> cases hcs : s.climate_status <;> simp [hcs]
  · rfl

lemma update_afterState_live (s : EntityState) (r : RefreshResult)
    (st : ClimateStatusResult) :
    (async_update s r st).afterState.live = s.live := by
  unfold async_update async_update_inner
  split
  · cases r with
    | raise => rfl
    | ok b =>
      cases b
      · rfl
      · cases st with
        | raise => rfl
        | ok f cur => cases f <;> cases hcs : s.climate_status <;> simp [hcs]
  · rfl

lemma update_afterState_nextTimer (s : EntityState) (r : RefreshResult)
    (st : ClimateStatusResult) :
    (async_update s r st).afterState.nextTimer = s.nextTimer := by
  unfold async_update async_update_inner
  split
  · cases r with
    | raise => rfl
    | ok b =>
      cases b
      · rfl
      · cases st with
        | raise => rfl
        | ok f cur => cases f <;> cases hcs : s.climate_status <;> simp [hcs]
  · rfl

lemma timerInv_fireTimer {s : EntityState} (h : timerInv s) (t : Nat)
    (res : ApiResult) : timerInv (fireTimer s t res).1 := by
  unfold fireTimer
  split
  · rename_i hmem
    have hp : s.pending = some t := by
      rcases hpc : s.pending with _ | u
      · rw [h.1, hpc] at hmem
        simp at hmem
      · rw [h.1, hpc] at hmem
        simp at hmem
        rw [hmem]
    have hl : s.live.erase t = [] := by
      rw [h.1, hp]
      simp [Option.toList]
    dsimp only
    split <;> exact ⟨by simpa using hl, by intro u hu; rw [hl] at hu; simp at hu⟩
  · exact h

lemma timerInv_step {s : EntityState} (h : timerInv s) (a : Action) :
    timerInv (step s a) := by
  cases a with
  | setTemperature t =>
    cases t with
    | none => exact h
    | some v => exact timerInv_debounce h
  | setPreset p =>
    show timerInv (async_set_preset_mode s p).afterState
    unfold async_set_preset_mode
    split_ifs <;> exact timerInv_debounce h
  | setHvacMode m upd start stop =>
    cases m with
    | off =>
      show timerInv (turn_off_climate s stop).afterState
      rw [turn_off_afterState]
      exact h
    | heat_cool =>
      show timerInv (turn_on_climate s upd start).afterState
      refine ⟨?_, ?_⟩
      · rw [turn_on_afterState_live, turn_on_afterState_pending,
          cancelPending_live_of_inv h]
        rfl
      · intro u hu
        rw [turn_on_afterState_live, cancelPending_live_of_inv h] at hu
        simp at hu
  | turnOn upd start =>
    show timerInv (turn_on_climate s upd start).afterState
    refine ⟨?_, ?_⟩
    · rw [turn_on_afterState_live, turn_on_afterState_pending,
        cancelPending_live_of_inv h]
      rfl
    · intro u hu
      rw [turn_on_afterState_live, cancelPending_live_of_inv h] at hu
      simp at hu
  | turnOff stop =>
    show timerInv (turn_off_climate s stop).afterState
    rw [turn_off_afterState]
    exact h
  | update r st =>
    show timerInv (async_update s r st).afterState
    refine ⟨?_, ?_⟩
    · rw [update_afterState_live, update_afterState_pending, h.1]
    · intro u hu
      rw [update_afterState_live] at hu
      rw [update_afterState_nextTimer]
      exact h.2 u hu
  | fire t res => exact timerInv_fireTimer h t res
  | remove => exact timerInv_cancelPending h

lemma reachable_timerInv {s : EntityState} (h : Reachable s) : timerInv s := by
  induction h with
  | init ops target minT maxT tstep => exact ⟨rfl, by intro t ht; simp [initState] at ht⟩
  | step a _ ih => exact timerInv_step ih a

/-! ### C8: at most one live timer, schedule-replaces-pending -/

/-- C8: in every reachable state at most one timer is live, and the one
scheduling operation (`_debounce_send_climate_settings`) cancels and replaces
any existing pending timer: afterwards the queue holds exactly the fresh
handle and the old pending handle is no longer live. -/
theorem C8_timer_discipline (s : EntityState) (h : Reachable s) :
    s.live.length ≤ 1 ∧
    ∀ t, s.pending = some t →
      (debounce_send_climate_settings s).live = [s.nextTimer] ∧
      t ∉ (debounce_send_climate_settings s).live := by
  have hinv := reachable_timerInv h
  refine ⟨?_, ?_⟩
  · rw [hinv.1]
    cases s.pending <;> simp
  · intro t ht
    have hlive : (debounce_send_climate_settings s).live = [s.nextTimer] := by
      rw [debounce_live, cancelPending_live_of_inv hinv]
    refine ⟨hlive, ?_⟩
    have htl : t < s.nextTimer := hinv.2 t (by rw [hinv.1, ht]; simp [Option.toList])
    rw [hlive]
    simp
    omega

/-- Witness for C8 at a reachable state with a pending timer (one debounced
request after initialisation). -/
theorem C8_timer_discipline_witness :
    samplePendingState.live.length ≤ 1 ∧
    ∀ t, samplePendingState.pending = some t →
      (debounce_send_climate_settings samplePendingState).live =
        [samplePendingState.nextTimer] ∧
      t ∉ (debounce_send_climate_settings samplePendingState).live :=
  C8_timer_discipline samplePendingState
    (Reachable.step (Action.setTemperature (some 21))
      (Reachable.init sampleOps 21 18 29 1))

/-! ### C4: a cancelled pending send never fires -/

/-- C4: when a pending debounced send is cancelled before its delay elapses —
by the turn-on path or by entity teardown — its timer is no longer scheduled,
so delivering it later has no effect at all: no state change and zero remote
calls result from the cancelled send. -/
theorem C4_cancelled_send_never_fires (s : EntityState) (t : Nat)
    (hinv : timerInv s) (hp : s.pending = some t)
    (upd start res1 res2 : ApiResult) :
    fireTimer (step s Action.remove) t res1 = (step s Action.remove, []) ∧
    fireTimer (step s (Action.turnOn upd start)) t res2 =
      (step s (Action.turnOn upd start), []) := by
  have h1 : (step s Action.remove).live = [] := by
    show (cancelPending s).live = []
    exact cancelPending_live_of_inv hinv
  have h2 : (step s (Action.turnOn upd start)).live = [] := by
    show (turn_on_climate s upd start).afterState.live = []
    rw [turn_on_afterState_live]
    exact cancelPending_live_of_inv hinv
  constructor
  · unfold fireTimer
    rw [h1]
    simp
  · unfold fireTimer
    rw [h2]
    simp

/-- Witness for C4 at the sample state with pending handle 0, cancelled by
teardown and by turn-on. -/
theorem C4_cancelled_send_never_fires_witness :
    fireTimer (step samplePendingState Action.remove) 0 ApiResult.raise =
      (step samplePendingState Action.remove, []) ∧
    fireTimer
      (step samplePendingState
        (Action.turnOn (ApiResult.value ⟨true, some 1⟩)
          (ApiResult.value ⟨true, some 1⟩))) 0
      (ApiResult.value ⟨true, some 1⟩) =
      (step samplePendingState
        (Action.turnOn (ApiResult.value ⟨true, some 1⟩)
          (ApiResult.value ⟨true, some 1⟩)), []) :=
  C4_cancelled_send_never_fires samplePendingState 0
    ⟨rfl, by decide⟩ rfl
    (ApiResult.value ⟨true, some 1⟩) (ApiResult.value ⟨true, some 1⟩)
    ApiResult.raise (ApiResult.value ⟨true, some 1⟩)

/-! ### C3: a burst of debounced requests coalesces into one send -/

lemma remoteCalls_append (a b : List Effect) :
    remoteCalls (a ++ b) = remoteCalls a ++ remoteCalls b := by
  unfold remoteCalls
  exact List.filterMap_append a b _

lemma request_no_remote (s : EntityState) (r : SendRequest) :
    remoteCalls (stepO s r.toAction).effects = [] := by
  cases r with
  | temp v =>
    simp [SendRequest.toAction, stepO, async_set_temperature, remoteCalls]
  | preset n =>
    simp [SendRequest.toAction, stepO, async_set_preset_mode, remoteCalls]

lemma request_post {s : EntityState} (h : timerInv s) (r : SendRequest) :
    timerInv (stepO s r.toAction).afterState ∧
    (stepO s r.toAction).afterState.settings_changed = true ∧
    ∃ t, (stepO s r.toAction).afterState.pending = some t := by
  cases r with
  | temp v =>
    refine ⟨timerInv_debounce h, ?_, ?_⟩
    · exact debounce_settings_changed _
    · exact ⟨_, debounce_pending _⟩
  | preset n =>
    show timerInv (async_set_preset_mode s n).afterState ∧ _
    unfold async_set_preset_mode
    split_ifs <;>
      exact ⟨timerInv_debounce h, debounce_settings_changed _,
        ⟨_, debounce_pending _⟩⟩

lemma runBurst_post (reqs : List SendRequest) (s : EntityState)
    (hinv : timerInv s) (hne : reqs ≠ []) :
    timerInv (runBurst s reqs).1 ∧
    (runBurst s reqs).1.settings_changed = true ∧
    (∃ t, (runBurst s reqs).1.pending = some t) ∧
    remoteCalls (runBurst s reqs).2 = [] := by
  induction reqs generalizing s with
  | nil => exact absurd rfl hne
  | cons r rs ih =>
    have hpost := request_post hinv r
    rcases hrs : rs with _ | ⟨r2, rs2⟩
    · subst hrs
      refine ⟨hpost.1, hpost.2.1, hpost.2.2, ?_⟩
      show remoteCalls ((stepO s r.toAction).effects ++
        (runBurst (stepO s r.toAction).afterState []).2) = []
      rw [remoteCalls_append, request_no_remote]
      rfl
    · have ihres := ih (s := (stepO s r.toAction).afterState) hpost.1
        (by simp [hrs])
      rw [hrs] at ihres
      refine ⟨ihres.1, ihres.2.1, ihres.2.2.1, ?_⟩
      show remoteCalls ((stepO s r.toAction).effects ++
        (runBurst (stepO s r.toAction).afterState (r2 :: rs2)).2) = []
      rw [remoteCalls_append, request_no_remote, ihres.2.2.2]
      rfl

lemma fireTimer_pending_send {s : EntityState} {t : Nat} (hinv : timerInv s)
    (hp : s.pending = some t) (hch : s.settings_changed = true)
    (res : ApiResult) :
    (fireTimer s t res).2 =
      [Effect.remoteCall
        (RemoteCall.updateSettings (create_climate_settings s))] := by
  have hl : s.live = [t] := by
    rw [hinv.1, hp]
    rfl
  unfold fireTimer
  rw [hl]
  simp [hch, send_climate_settings_snd, create_climate_settings,
    climate_settings_on]

/-- C3: a burst of N ≥ 1 debounced send requests (temperature or preset
changes) issued back to back — i.e. with no timer able to fire in between —
makes zero remote calls during the burst, leaves exactly one timer pending,
and when that timer fires it makes exactly one remote settings-update call
whose payload is built from the device state as of the last request in the
burst. -/
theorem C3_burst_coalesces_to_one_send (s : EntityState)
    (reqs : List SendRequest) (hne : reqs ≠ []) (hinv : timerInv s)
    (res : ApiResult) :
    remoteCalls (runBurst s reqs).2 = [] ∧
    ∃ t, (runBurst s reqs).1.pending = some t ∧
      (fireTimer (runBurst s reqs).1 t res).2 =
        [Effect.remoteCall (RemoteCall.updateSettings
          (create_climate_settings (runBurst s reqs).1))] := by
  obtain ⟨hinv2, hch, ⟨t, hp⟩, hrc⟩ := runBurst_post reqs s hinv hne
  exact ⟨hrc, t, hp, fireTimer_pending_send hinv2 hp hch res⟩

/-- Witness for C3: a burst of a temperature change then a preset change on
the sample entity. -/
theorem C3_burst_coalesces_to_one_send_witness :
    remoteCalls
      (runBurst sampleState
        [SendRequest.temp 22, SendRequest.preset "front_defrost"]).2 = [] ∧
    ∃ t,
      (runBurst sampleState
        [SendRequest.temp 22, SendRequest.preset "front_defrost"]).1.pending
        = some t ∧
      (fireTimer
        (runBurst sampleState
          [SendRequest.temp 22, SendRequest.preset "front_defrost"]).1 t
        (ApiResult.value ⟨true, some 1⟩)).2 =
        [Effect.remoteCall (RemoteCall.updateSettings
          (create_climate_settings
            (runBurst sampleState
              [SendRequest.temp 22, SendRequest.preset "front_defrost"]).1))] :=
  C3_burst_coalesces_to_one_send sampleState
    [SendRequest.temp 22, SendRequest.preset "front_defrost"]
    (List.cons_ne_nil _ _) ⟨rfl, by decide⟩ (ApiResult.value ⟨true, some 1⟩)

end ToyotaClimate
